/-
Verification of the datahog cross-shard store against its design document.

Shallow embedding of the backend query layer (datahog/db/query.py), the
transaction coordinator (datahog/db/txn.py), the connection pool
(datahog/pool.py) and the const helpers (datahog/const/util.py).

Values stored in text and bytea columns are modelled as byte lists
(List Nat); integer columns as Int or Nat; every fallible operation
returns Except or Option.  Each definition carries a doc comment naming
the source function it embeds.
-/
import Mathlib

namespace Datahog

/-! ## Flag bitmaps (db/query.py add_flags and clear_flags) -/

/-- Translation of db/query.py add_flags (lines 1130 to 1147): the update
statement sets flags to flags OR mask on every matching live row.  This is the
bitmap core applied to one row. -/
def add_flags (flags mask : Nat) : Nat := flags ||| mask

/-- Translation of db/query.py clear_flags (lines 1150 to 1167): the update
statement sets flags to flags AND NOT mask.  On the nonnegative bitmaps held in
the flags column this is exactly the bitwise difference Nat.ldiff. -/
def clear_flags (flags mask : Nat) : Nat := Nat.ldiff flags mask

/-- Modelled from the spec: the composite set_flags(add_mask, clear_mask)
operation.  The api layer calls query.set_flags but db/query.py carries only
add_flags and clear_flags; section 4.4 of the design document gives the
composite formula, apply (flags AND NOT clear_mask) OR add_mask. -/
def set_flags (flags addMask clearMask : Nat) : Nat :=
  add_flags (clear_flags flags clearMask) addMask

/-! ## Flag registry round trip (const/util.py) -/

/-- The boot-time registries: the key set of context.META together with
flag.META viewed as a map from context id to the set of registered flag bit
numbers (const/flag.py set_flag stores entries under META[ctx]). -/
structure Registry where
  contexts : Finset Nat
  flagMeta : Nat → Finset Nat

/-- Error kinds raised by the const helpers (datahog/error.py). -/
inductive DhError where
  | badContext (ctx : Nat)
  | badFlag (i ctx : Nat)
deriving DecidableEq, Repr

/-- Loop body of const/util.py flags_to_int (lines 89 to 99): accumulate
num OR (1 shifted left by i - 1), raising BadFlag on a bit number that is not
registered for the context. -/
def flags_to_int_loop (meta : Finset Nat) (ctx : Nat) :
    List Nat → Nat → Except DhError Nat
  | [], num => .ok num
  | i :: rest, num =>
    if i ∈ meta then flags_to_int_loop meta ctx rest (num ||| (1 <<< (i - 1)))
    else .error (.badFlag i ctx)

/-- Translation of const/util.py flags_to_int: BadContext when the context is
unknown, then the accumulation loop starting from num = 0. -/
def flags_to_int (reg : Registry) (ctx : Nat) (flag_list : List Nat) :
    Except DhError Nat :=
  if ctx ∈ reg.contexts then flags_to_int_loop (reg.flagMeta ctx) ctx flag_list 0
  else .error (.badContext ctx)

/-- The bitmap value flags_to_int produces on a valid flag list: fold of
num OR (1 shifted left by i - 1) over the list. -/
def bitmap (l : List Nat) : Nat :=
  l.foldl (fun num i => num ||| (1 <<< (i - 1))) 0

/-- Translation of the while loop of const/util.py int_to_flags (lines 102 to
115): scan bit positions upward from i while the remaining bitmap is nonzero,
collecting the positions whose bit is set and which are registered. -/
def int_to_flags_loop (meta : Finset Nat) (flag_num i : Nat) : Finset Nat :=
  if flag_num = 0 then ∅
  else
    (if flag_num % 2 = 1 ∧ i ∈ meta then {i} else ∅) ∪
      int_to_flags_loop meta (flag_num / 2) (i + 1)
termination_by flag_num
decreasing_by simp_wf; omega

/-- Translation of const/util.py int_to_flags: BadContext check, then the scan
loop starting at bit number 1. -/
def int_to_flags (reg : Registry) (ctx : Nat) (flag_num : Nat) :
    Except DhError (Finset Nat) :=
  if ctx ∈ reg.contexts then .ok (int_to_flags_loop (reg.flagMeta ctx) flag_num 1)
  else .error (.badContext ctx)

/-- Concrete registry used to instantiate theorems: one context 2 with flag
bits 1 and 3 registered. -/
def regW : Registry where
  contexts := {2}
  flagMeta := fun c => if c = 2 then ({1, 3} : Finset Nat) else ∅

/-! ## Saturating increment (db/query.py increment_property, increment_node) -/

/-- The new value computed by the update statement shared by
db/query.py increment_property (lines 160 to 191) and increment_node (lines
905 to 936) for one live row: with no limit the plain sum; with a limit,
num + by when (num + by OP limit) holds and limit otherwise, where OP is >
for negative by and < for nonnegative by. -/
def increment_num (num step : Int) (limit : Option Int) : Int :=
  match limit with
  | none => num + step
  | some l =>
    if step < 0 then
      if num + step > l then num + step else l
    else
      if num + step < l then num + step else l

/-- Translation of db/query.py increment_property: the update touches the one
live row for (base_id, ctx) when present (returning the new num), and returns
None when no live row matched. -/
def increment_property (row : Option Int) (step : Int) (limit : Option Int) :
    Option Int :=
  row.map (fun num => increment_num num step limit)

/-- Translation of db/query.py increment_node: identical update shape against
the node table keyed by (guid, ctx). -/
def increment_node (row : Option Int) (step : Int) (limit : Option Int) :
    Option Int :=
  row.map (fun num => increment_num num step limit)

/-! ## Two-phase commit elsewhere scope (db/txn.py TwoPhaseCommit) -/

/-- Observable actions of TwoPhaseCommit.elsewhere on the prepared anchor
transaction, together with the exceptions it lets escape (db/txn.py lines 77
to 110). -/
inductive TpcEvent (ε : Type) where
  | rollbackAnchor
  | commitAnchor
  | raiseExc (e : ε)
  | raiseAlreadyFailed
deriving DecidableEq

/-- Translation of TwoPhaseCommit.elsewhere (db/txn.py lines 89 to 110):
failedBefore is the _failed flag on entry, bodyExc the exception escaping the
yielded block (none when the block returns normally) and failedAfter the
_failed flag when the block finishes.  On entry with _failed already set it
raises RuntimeError; an exception from the block first rolls the anchor back
(failures of that rollback are swallowed) and then re-raises; a normal finish
rolls back when the block marked the 2PC failed and commits otherwise. -/
def elsewhere {ε : Type} (failedBefore failedAfter : Bool)
    (bodyExc : Option ε) : List (TpcEvent ε) :=
  if failedBefore then [.raiseAlreadyFailed]
  else
    match bodyExc with
    | some e => [.rollbackAnchor, .raiseExc e]
    | none => if failedAfter then [.rollbackAnchor] else [.commitAnchor]

/-! ## Connection pool acquisition (pool.py ConnectionPool.get_by_shard) -/

/-- Outcome of a queue get in discrete time. -/
inductive QGet where
  | item (t : Nat)
  | emptyExc
  | blocksForever
deriving DecidableEq

/-- Semantics of Queue.get(block, timeout) for the stdlib, greenhouse and
gevent queues backing the pool, in discrete time.  availAt is the instant at
which a connection shows up in the shard queue (some 0 means one is free
immediately, none means no connection is ever put back).  A non-blocking get
succeeds only when an item is free immediately and raises Empty otherwise; a
blocking get with no timeout waits indefinitely; a blocking get with a
timeout raises Empty once the timeout elapses. -/
def queue_get (block : Bool) (timeout : Option Nat) (availAt : Option Nat) :
    QGet :=
  if !block then
    if availAt = some 0 then .item 0 else .emptyExc
  else
    match timeout with
    | none =>
      match availAt with
      | some t => .item t
      | none => .blocksForever
    | some tmo =>
      match availAt with
      | some t => if t ≤ tmo then .item t else .emptyExc
      | none => .emptyExc

/-- Python truthiness of the optional timeout argument (None and 0 falsy). -/
def pyTruthy (timeout : Option Nat) : Bool :=
  match timeout with
  | none => false
  | some n => n != 0

/-- Outcome of ConnectionPool.get_by_shard as seen by the caller. -/
inductive PoolGet where
  | conn (t : Nat)
  | timeoutError
  | blocksForever
deriving DecidableEq

/-- Translation of pool.py ConnectionPool.get_by_shard (lines 204 to 226),
acquisition path only (replace=False as db/txn.py uses it, shard known): the
source runs self._conns[shard].get(timeout), so the optional timeout is
passed positionally as the block flag of Queue.get(block=True, timeout=None)
while the timeout keyword keeps its default None, and Queue.Empty is
translated to error.Timeout. -/
def get_by_shard (timeout : Option Nat) (availAt : Option Nat) : PoolGet :=
  match queue_get (pyTruthy timeout) none availAt with
  | .item t => .conn t
  | .emptyExc => .timeoutError
  | .blocksForever => .blocksForever

/-! ## Property and node value writes (db/query.py) -/

/-- Storage classes from const/storage.py; db/query.py only splits INT from
the rest, putting INT values in the num column and all other storage classes
in the value column. -/
inductive Storage where
  | int
  | str
  | utf
  | serial
  | null
deriving DecidableEq

/-- A row of the configured base table of a context (entity or node), reduced
to the columns the existence subqueries read. -/
structure BaseRow where
  guid : Nat
  ctx : Nat
  removed : Bool
deriving DecidableEq

/-- A value as bound into the SQL statement: an integer for the num column or
bytes for the value column (storage_wrap upstream guarantees the runtime type
matches the storage class of the context). -/
inductive Val where
  | int (n : Int)
  | bytes (b : List Nat)
deriving DecidableEq

structure PropRow where
  base_id : Nat
  ctx : Nat
  num : Option Int
  value : Option (List Nat)
  flags : Nat
  removed : Bool
deriving DecidableEq

structure NodeRow where
  guid : Nat
  ctx : Nat
  num : Option Int
  value : Option (List Nat)
  flags : Nat
  removed : Bool
deriving DecidableEq

/-- The database slice the property statements touch on one shard. -/
structure PropDb where
  bases : List BaseRow
  props : List PropRow
deriving DecidableEq

/-- The pair written by the set clause val_field=value, other_field=null
shared by upsert_property, update_property and update_node. -/
def writeValCols (st : Storage) (v : Val) : Option Int × Option (List Nat) :=
  if st = .int then
    (match v with | .int n => some n | .bytes _ => none, none)
  else
    (none, match v with | .bytes b => some b | .int _ => none)

/-- existencequery of upsert_property: a live base-table row with
guid = base_id and ctx = base_ctx. -/
def parent_live (db : PropDb) (base_id base_ctx : Nat) : Bool :=
  db.bases.any (fun b => !b.removed && b.guid == base_id && b.ctx == base_ctx)

/-- whether a live property row for (base_id, ctx) exists, the target of
updatequery. -/
def prop_live (db : PropDb) (base_id ctx : Nat) : Bool :=
  db.props.any (fun p => !p.removed && p.base_id == base_id && p.ctx == ctx)

/-- Translation of db/query.py upsert_property (lines 93 to 137): within one
snapshot, updatequery rewrites the live (base_id, ctx) property row (the
value into the storage column of the context, null into the other, plus the
flags) provided the parent exists; insertquery inserts a fresh row exactly
when updatequery touched nothing and the parent exists; the final select
returns the pair (inserted, updated). -/
def upsert_property (st : Storage) (db : PropDb) (base_id base_ctx ctx : Nat)
    (v : Val) (flags : Nat) : (Bool × Bool) × PropDb :=
  let pl := parent_live db base_id base_ctx
  let updated := pl && prop_live db base_id ctx
  let inserted := pl && !(prop_live db base_id ctx)
  let props1 :=
    if updated then
      db.props.map (fun p =>
        if !p.removed && p.base_id == base_id && p.ctx == ctx then
          { p with num := (writeValCols st v).1, value := (writeValCols st v).2,
                   flags := flags }
        else p)
    else db.props
  let props2 :=
    if inserted then
      props1 ++ [{ base_id := base_id, ctx := ctx,
                   num := (writeValCols st v).1,
                   value := (writeValCols st v).2,
                   flags := flags, removed := false }]
    else props1
  ((inserted, updated), { db with props := props2 })

/-- Translation of db/query.py update_property (lines 140 to 157): update the
live (base_id, ctx) property row, writing the value into the storage column
and null into the other; returns the row count. -/
def update_property (st : Storage) (db : PropDb) (base_id ctx : Nat) (v : Val) :
    Nat × PropDb :=
  let hit := fun (p : PropRow) =>
    !p.removed && p.base_id == base_id && p.ctx == ctx
  let count := (db.props.filter hit).length
  let props := db.props.map (fun p =>
    if hit p then
      { p with num := (writeValCols st v).1, value := (writeValCols st v).2 }
    else p)
  (count, { db with props := props })

/-- the optional old-value guard of update_node: val_field = old_value, with
SQL null semantics (a null stored column never matches). -/
def colEq (st : Storage) (pnum : Option Int) (pval : Option (List Nat))
    (ov : Val) : Bool :=
  if st = .int then
    match ov, pnum with
    | .int n, some m => n == m
    | _, _ => false
  else
    match ov, pval with
    | .bytes b, some c => b == c
    | _, _ => false

/-- Translation of db/query.py update_node (lines 876 to 902): update the
live node row for (guid, ctx), optionally guarded on the current value of the
storage column, writing the value into the storage column and null into the
other; returns whether a row matched. -/
def update_node (st : Storage) (nodes : List NodeRow) (nid ctx : Nat) (v : Val)
    (old_value : Option Val) : Bool × List NodeRow :=
  let hit := fun (p : NodeRow) =>
    !p.removed && p.guid == nid && p.ctx == ctx &&
      (match old_value with
       | none => true
       | some ov => colEq st p.num p.value ov)
  let moved := nodes.any hit
  (moved, nodes.map (fun p =>
    if hit p then
      { p with num := (writeValCols st v).1, value := (writeValCols st v).2 }
    else p))

/-! ## Ordered-list reorder (db/query.py reorder_edge) -/

structure EdgeRow where
  base_id : Nat
  ctx : Nat
  child_id : Nat
  pos : Nat
  removed : Bool
deriving DecidableEq

/-- oldpos CTE of reorder_edge: the position of the live row for
(base_id, ctx, child_id); the scalar subquery presumes at most one such
row. -/
def edge_oldpos (rows : List EdgeRow) (base_id ctx child_id : Nat) :
    Option Nat :=
  (rows.find? (fun r => !r.removed && r.base_id == base_id && r.ctx == ctx &&
      r.child_id == child_id)).map (·.pos)

/-- Translation of db/query.py reorder_edge (lines 939 to 977): one snapshot;
the bump update shifts every live row of the list whose pos lies between
symmetric the old and the requested position by one toward the old slot, and
the move update writes the requested pos onto the target row (the statement
updates the target twice, the final write of the requested pos being the
operative one).  Returns whether the move matched a row. -/
def reorder_edge (rows : List EdgeRow) (base_id ctx child_id pos : Nat) :
    Bool × List EdgeRow :=
  match edge_oldpos rows base_id ctx child_id with
  | none => (false, rows)
  | some oldp =>
    let lo := min oldp pos
    let hi := max oldp pos
    let rows2 := rows.map (fun r =>
      if !r.removed && r.base_id == base_id && r.ctx == ctx then
        if r.child_id == child_id then { r with pos := pos }
        else if lo ≤ r.pos && r.pos ≤ hi then
          { r with pos := if oldp < r.pos then r.pos - 1 else r.pos + 1 }
        else r
      else r)
    (true, rows2)

/-! ## Shard router (pool.py) -/

/-- An insertion-plan entry after pool.py _prepare_plan: the running partial
sum of the weights paired with the shard number. -/
structure PlanEntry where
  psum : Nat
  shard : Nat
deriving DecidableEq

/-- pool.py _int_hash: big-endian fold of the digest bytes into one number. -/
def int_hash (digest : List Nat) : Nat :=
  digest.foldl (fun n c => (n <<< 8) ||| c) 0

/-- pool.py _pick_from_plan with the key number already computed: the search
returns the shard of the first entry whose partial sum strictly exceeds
num mod total weight (the partial sums are strictly increasing, so the
bisect_right on (partial, shard) pairs finds exactly this entry); none models
the index error on an empty plan. -/
def pick_from_plan (plan : List PlanEntry) (num : Nat) : Option Nat :=
  match plan.getLast? with
  | none => none
  | some last => (plan.find? (fun e => num % last.psum < e.psum)).map (·.shard)

/-- The pool configuration the router reads (after _init_conf prepared the
plans). -/
structure PoolCfg where
  shard_bits : Nat
  lookup_insertion_plans : List (List PlanEntry)
deriving DecidableEq

/-- pool.py ConnectionPool.shard_by_guid: guid shifted right by
(64 - shard_bits). -/
def shard_by_guid (cfg : PoolCfg) (guid : Nat) : Nat :=
  guid >>> (64 - cfg.shard_bits)

/-- order-preserving de-duplication with the seen set kept by the reading
iterators of pool.py. -/
def dedupe_go (seen : List Nat) : List Nat → List Nat
  | [] => []
  | s :: rest =>
    if s ∈ seen then dedupe_go seen rest
    else s :: dedupe_go (s :: seen) rest

/-- pool.py ConnectionPool.shards_for_lookup_hash: walk the insertion plans
newest first, picking by the digest number, de-duplicating shards. -/
def shards_for_lookup_hash (cfg : PoolCfg) (digest : List Nat) : List Nat :=
  dedupe_go [] (cfg.lookup_insertion_plans.reverse.filterMap
    (fun plan => pick_from_plan plan (int_hash digest)))

/-- pool.py ConnectionPool.shards_for_lookup_prefix: the same walk keyed by
the first byte of the value (the source indexes value[0] and presumes a
nonempty value). -/
def shards_for_lookup_pfx (cfg : PoolCfg) (value : List Nat) : List Nat :=
  dedupe_go [] (cfg.lookup_insertion_plans.reverse.filterMap
    (fun plan => pick_from_plan plan (value.headD 0)))

/-! ## Alias and name flag changes (db/txn.py) -/

structure AliasLookupRow where
  shard : Nat
  hash : List Nat
  ctx : Nat
  base_id : Nat
  flags : Nat
  removed : Bool
deriving DecidableEq

structure AliasRow where
  shard : Nat
  base_id : Nat
  ctx : Nat
  value : List Nat
  pos : Nat
  flags : Nat
  removed : Bool
deriving DecidableEq

structure NameRow where
  shard : Nat
  base_id : Nat
  ctx : Nat
  value : List Nat
  pos : Nat
  flags : Nat
  removed : Bool
deriving DecidableEq

structure PfxLookupRow where
  shard : Nat
  base_id : Nat
  ctx : Nat
  value : List Nat
  flags : Nat
  removed : Bool
deriving DecidableEq

/-- The tables involved in alias and name flag maintenance.  Rows carry the
shard that stores them; a statement only sees the rows of its cursor
shard. -/
structure LookupDb where
  aliasLookups : List AliasLookupRow
  aliases : List AliasRow
  names : List NameRow
  pfxLookups : List PfxLookupRow
deriving DecidableEq

/-- db/query.py select_alias_lookup: the live lookup row for (hash, ctx) on
the cursor shard. -/
def select_alias_lookup (db : LookupDb) (s : Nat) (digest : List Nat)
    (ctx : Nat) : Option AliasLookupRow :=
  db.aliasLookups.find? (fun r =>
    r.shard == s && !r.removed && r.hash == digest && r.ctx == ctx)

/-- The read loop opening _add_alias_flags (db/txn.py lines 268 to 285): walk
the read plans and return the first shard holding a live lookup row for the
digest, with that row. -/
def find_alias_owner (cfg : PoolCfg) (db : LookupDb) (digest : List Nat)
    (ctx : Nat) : Option (Nat × AliasLookupRow) :=
  (shards_for_lookup_hash cfg digest).findSome? (fun s =>
    (select_alias_lookup db s digest ctx).map (fun r => (s, r)))

/-- Modelled from the spec: db/txn.py line 897 calls
query.select_prefix_lookups to test for a live prefix_lookup row with the
given value, ctx and base_id on the cursor shard, but db/query.py does not
carry that function; section 4.8 describes the read (locate the owning shard,
verifying base_id matches). -/
def select_pfx_lookups (db : LookupDb) (s : Nat) (value : List Nat)
    (ctx base_id : Nat) : Bool :=
  db.pfxLookups.any (fun r =>
    r.shard == s && !r.removed && r.value == value && r.ctx == ctx &&
      r.base_id == base_id)

/-- db/txn.py _find_prefix_lookup_shard via _find_name_lookup_shard (the
contexts in scope here carry the prefix search class): the first read-plan
shard whose prefix_lookup has the row. -/
def find_name_lookup_shard (cfg : PoolCfg) (db : LookupDb) (value : List Nat)
    (ctx base_id : Nat) : Option Nat :=
  (shards_for_lookup_pfx cfg value).find? (fun s =>
    select_pfx_lookups db s value ctx base_id)

/-- db/query.py add_flags against alias_lookup with where {hash, ctx} on the
cursor shard: the new bitmap of the first updated row (none when the update
matched nothing, the source tests the empty result list). -/
def new_lookup_flags (db : LookupDb) (s : Nat) (digest : List Nat) (ctx : Nat)
    (mask : Nat) : Option Nat :=
  ((db.aliasLookups.filter (fun r =>
      r.shard == s && !r.removed && r.hash == digest && r.ctx == ctx)).map
    (fun r => r.flags ||| mask)).head?

/-- the alias_lookup table after that add_flags update. -/
def apply_lookup_flags (db : LookupDb) (s : Nat) (digest : List Nat)
    (ctx : Nat) (mask : Nat) : LookupDb :=
  { db with aliasLookups := db.aliasLookups.map (fun r =>
      if r.shard == s && !r.removed && r.hash == digest && r.ctx == ctx then
        { r with flags := r.flags ||| mask }
      else r) }

/-- db/query.py add_flags against alias with where {base_id, ctx, value} on
the primary shard: new bitmap of the first updated row. -/
def new_alias_flags (db : LookupDb) (s : Nat) (base_id ctx : Nat)
    (value : List Nat) (mask : Nat) : Option Nat :=
  ((db.aliases.filter (fun r =>
      r.shard == s && !r.removed && r.base_id == base_id && r.ctx == ctx &&
        r.value == value)).map (fun r => r.flags ||| mask)).head?

def apply_alias_flags (db : LookupDb) (s : Nat) (base_id ctx : Nat)
    (value : List Nat) (mask : Nat) : LookupDb :=
  { db with aliases := db.aliases.map (fun r =>
      if r.shard == s && !r.removed && r.base_id == base_id && r.ctx == ctx &&
          r.value == value then
        { r with flags := r.flags ||| mask }
      else r) }

/-- db/query.py add_flags against name with where {base_id, ctx, value}. -/
def new_name_flags (db : LookupDb) (s : Nat) (base_id ctx : Nat)
    (value : List Nat) (mask : Nat) : Option Nat :=
  ((db.names.filter (fun r =>
      r.shard == s && !r.removed && r.base_id == base_id && r.ctx == ctx &&
        r.value == value)).map (fun r => r.flags ||| mask)).head?

def apply_name_flags (db : LookupDb) (s : Nat) (base_id ctx : Nat)
    (value : List Nat) (mask : Nat) : LookupDb :=
  { db with names := db.names.map (fun r =>
      if r.shard == s && !r.removed && r.base_id == base_id && r.ctx == ctx &&
          r.value == value then
        { r with flags := r.flags ||| mask }
      else r) }

/-- db/query.py add_flags against prefix_lookup with where
{base_id, ctx, value}. -/
def new_pfx_flags (db : LookupDb) (s : Nat) (base_id ctx : Nat)
    (value : List Nat) (mask : Nat) : Option Nat :=
  ((db.pfxLookups.filter (fun r =>
      r.shard == s && !r.removed && r.base_id == base_id && r.ctx == ctx &&
        r.value == value)).map (fun r => r.flags ||| mask)).head?

def apply_pfx_flags (db : LookupDb) (s : Nat) (base_id ctx : Nat)
    (value : List Nat) (mask : Nat) : LookupDb :=
  { db with pfxLookups := db.pfxLookups.map (fun r =>
      if r.shard == s && !r.removed && r.base_id == base_id && r.ctx == ctx &&
          r.value == value then
        { r with flags := r.flags ||| mask }
      else r) }

/-- Which table a flag write targets. -/
inductive Tbl where
  | aliasLookupT
  | aliasT
  | nameT
  | pfxLookupT
deriving DecidableEq

/-- Outcome of a flag-change operation as seen by the caller. -/
inductive FlagOpResult where
  | ok (flags : Nat)
  | nothing
  | raisesNameError
deriving DecidableEq

/-- Execution trace of a flag change: the shard of the 2PC anchor (when one
was opened), the flag writes attempted in order (table and shard), whether
the anchor was committed, and the outcome. -/
structure FlagChangeTrace where
  anchorShard : Option Nat
  writes : List (Tbl × Nat)
  committed : Bool
  result : FlagOpResult
deriving DecidableEq

/-- Translation of db/txn.py _add_alias_flags (lines 264 to 318): locate the
lookup row across the read plans (failing when absent or owned by another
base_id), anchor a 2PC on that lookup shard, apply add_flags to alias_lookup
there and prepare; then in the elsewhere scope apply add_flags to the primary
alias row, and commit only when the write matched and the resulting bitmap
equals the one from the lookup (otherwise the primary transaction and the
prepared anchor are rolled back, reverting both writes, and None is
returned).  An empty update result is tested through the head of the
returned bitmap list. -/
def add_alias_flags_txn (cfg : PoolCfg) (sha1 : List Nat → List Nat)
    (db : LookupDb) (base_id ctx : Nat) (aliasV : List Nat) (mask : Nat) :
    FlagChangeTrace × LookupDb :=
  let digest := sha1 aliasV
  match find_alias_owner cfg db digest ctx with
  | none => (⟨none, [], false, .nothing⟩, db)
  | some (s, owner) =>
    if owner.base_id != base_id then (⟨none, [], false, .nothing⟩, db)
    else
      match new_lookup_flags db s digest ctx mask with
      | none => (⟨some s, [(.aliasLookupT, s)], false, .nothing⟩, db)
      | some result_flags =>
        let ps := shard_by_guid cfg base_id
        match new_alias_flags db ps base_id ctx aliasV mask with
        | none =>
          (⟨some s, [(.aliasLookupT, s), (.aliasT, ps)], false, .nothing⟩, db)
        | some fl =>
          if fl != result_flags then
            (⟨some s, [(.aliasLookupT, s), (.aliasT, ps)], false, .nothing⟩,
             db)
          else
            (⟨some s, [(.aliasLookupT, s), (.aliasT, ps)], true,
                .ok result_flags⟩,
             apply_alias_flags
               (apply_lookup_flags db s digest ctx mask)
               ps base_id ctx aliasV mask)

/-- Translation of db/txn.py _add_name_flags (lines 813 to 841) with
_apply_flags_to_prefix_lookup (lines 918 to 933): locate the lookup shard
across the read plans, then anchor the 2PC on the shard of the primary name
row (shard_by_guid base_id), apply add_flags to the name row there and
prepare; in the elsewhere scope apply add_flags to the prefix_lookup row on
the lookup shard, committing only when it matched with an equal bitmap.  On
a mismatch the handler trips over the undefined tpc reference of
_apply_flags_to_prefix_lookup, so the elsewhere scope rolls the anchor back
and a NameError escapes. -/
def add_name_flags_txn (cfg : PoolCfg) (db : LookupDb) (base_id ctx : Nat)
    (value : List Nat) (mask : Nat) : FlagChangeTrace × LookupDb :=
  match find_name_lookup_shard cfg db value ctx base_id with
  | none => (⟨none, [], false, .nothing⟩, db)
  | some ls =>
    let ps := shard_by_guid cfg base_id
    match new_name_flags db ps base_id ctx value mask with
    | none => (⟨some ps, [(.nameT, ps)], false, .nothing⟩, db)
    | some result_flags =>
      match new_pfx_flags db ls base_id ctx value mask with
      | none =>
        (⟨some ps, [(.nameT, ps), (.pfxLookupT, ls)], false,
            .raisesNameError⟩, db)
      | some fl =>
        if fl != result_flags then
          (⟨some ps, [(.nameT, ps), (.pfxLookupT, ls)], false,
              .raisesNameError⟩, db)
        else
          (⟨some ps, [(.nameT, ps), (.pfxLookupT, ls)], true,
              .ok result_flags⟩,
           apply_pfx_flags
             (apply_name_flags db ps base_id ctx value mask)
             ls base_id ctx value mask)

/-- Concrete router configuration: one shard bit and a single insertion plan
sending every lookup to shard 1, so primaries of small guids live on shard 0
while their lookups live on shard 1. -/
def cfgN : PoolCfg :=
  { shard_bits := 1, lookup_insertion_plans := [[⟨1, 1⟩]] }

/-- Concrete name slice for cfgN: the primary name row of base 0, ctx 2 on
shard 0 and its prefix lookup on shard 1. -/
def dbN : LookupDb :=
  { aliasLookups := []
    aliases := []
    names := [⟨0, 0, 2, [102], 0, 0, false⟩]
    pfxLookups := [⟨1, 0, 2, [102], 0, false⟩] }

/-- Concrete alias slice for cfgN: the lookup row for digest [7] on shard 1
owned by base 0, and the primary alias row on shard 0. -/
def dbA : LookupDb :=
  { aliasLookups := [⟨1, [7], 2, 0, 0, false⟩]
    aliases := [⟨0, 0, 2, [9], 0, 0, false⟩]
    names := []
    pfxLookups := [] }

/-- digest function for the concrete alias slice: every value hashes to
[7]. -/
def sha1A : List Nat → List Nat := fun _ => [7]

/-- Combined concrete slice holding both the alias rows of dbA and the name
rows of dbN. -/
def dbAN : LookupDb :=
  { aliasLookups := [⟨1, [7], 2, 0, 0, false⟩]
    aliases := [⟨0, 0, 2, [9], 0, 0, false⟩]
    names := [⟨0, 0, 2, [102], 0, 0, false⟩]
    pfxLookups := [⟨1, 0, 2, [102], 0, false⟩] }

/-! ## Estate walker (db/txn.py _remove_entity and _remove_local_estates) -/

structure EntityRow6 where
  shard : Nat
  guid : Nat
  ctx : Nat
  removed : Bool
deriving DecidableEq

structure NodeRow6 where
  shard : Nat
  guid : Nat
  ctx : Nat
  removed : Bool
deriving DecidableEq

structure EdgeRow6 where
  shard : Nat
  base_id : Nat
  ctx : Nat
  child_id : Nat
  pos : Nat
  removed : Bool
deriving DecidableEq

structure PropRow6 where
  shard : Nat
  base_id : Nat
  ctx : Nat
  removed : Bool
deriving DecidableEq

structure RelRow6 where
  shard : Nat
  base_id : Nat
  ctx : Nat
  forward : Bool
  rel_id : Nat
  pos : Nat
  removed : Bool
deriving DecidableEq

/-- A relationship tuple (base_id, ctx, forward, rel_id) as returned by the
batch removals and carried in the estate buckets. -/
structure RelKey where
  base_id : Nat
  ctx : Nat
  forward : Bool
  rel_id : Nat
deriving DecidableEq

/-- A name-lookup triple (base_id, ctx, value) as returned by the batch name
removal and carried in the estate buckets. -/
structure NameKey where
  base_id : Nat
  ctx : Nat
  value : List Nat
deriving DecidableEq

/-- The whole-cluster state the cascade touches.  Rows carry the shard
storing them; a statement sees only the rows of its cursor shard. -/
structure EstateDb where
  entities : List EntityRow6
  nodes : List NodeRow6
  edges : List EdgeRow6
  props : List PropRow6
  aliases : List AliasRow
  names : List NameRow
  rels : List RelRow6
  aliasLookups : List AliasLookupRow
  pfxLookups : List PfxLookupRow
deriving DecidableEq

/-- db/query.py remove_entity: tombstone the live entity row for (guid, ctx)
on the cursor shard; returns whether a row was hit. -/
def remove_entity_q (db : EstateDb) (s guid ctx : Nat) : Bool × EstateDb :=
  let hit := fun (r : EntityRow6) =>
    r.shard == s && !r.removed && r.guid == guid && r.ctx == ctx
  (db.entities.any hit,
   { db with entities := db.entities.map (fun r =>
       if hit r then { r with removed := true } else r) })

/-- db/query.py remove_nodes: tombstone the live node rows on the cursor
shard whose guid is listed, returning the guids actually removed. -/
def remove_nodes_q (db : EstateDb) (s : Nat) (guids : List Nat) :
    List Nat × EstateDb :=
  let hit := fun (r : NodeRow6) =>
    r.shard == s && !r.removed && guids.contains r.guid
  ((db.nodes.filter hit).map (·.guid),
   { db with nodes := db.nodes.map (fun r =>
       if hit r then { r with removed := true } else r) })

/-- db/query.py remove_properties_multiple_bases: tombstone the live property
rows on the cursor shard with a listed base_id; returns the row count. -/
def remove_props_q (db : EstateDb) (s : Nat) (guids : List Nat) :
    Nat × EstateDb :=
  let hit := fun (r : PropRow6) =>
    r.shard == s && !r.removed && guids.contains r.base_id
  ((db.props.filter hit).length,
   { db with props := db.props.map (fun r =>
       if hit r then { r with removed := true } else r) })

/-- db/query.py remove_aliases_multiple_bases: tombstone the live alias rows
on the cursor shard with a listed base_id, returning their (value, ctx). -/
def remove_aliases_multi_q (db : EstateDb) (s : Nat) (guids : List Nat) :
    List (List Nat × Nat) × EstateDb :=
  let hit := fun (r : AliasRow) =>
    r.shard == s && !r.removed && guids.contains r.base_id
  ((db.aliases.filter hit).map (fun r => (r.value, r.ctx)),
   { db with aliases := db.aliases.map (fun r =>
       if hit r then { r with removed := true } else r) })

/-- Modelled from the spec: db/txn.py calls query.remove_names_multiple_bases
which db/query.py does not carry; per the cascade helpers of section 4.4 and
the walker step of section 4.6 it tombstones the live name rows of the listed
base ids on the cursor shard, returning their (base_id, ctx, value). -/
def remove_names_multi_q (db : EstateDb) (s : Nat) (guids : List Nat) :
    List NameKey × EstateDb :=
  let hit := fun (r : NameRow) =>
    r.shard == s && !r.removed && guids.contains r.base_id
  ((db.names.filter hit).map (fun r => ⟨r.base_id, r.ctx, r.value⟩),
   { db with names := db.names.map (fun r =>
       if hit r then { r with removed := true } else r) })

/-- db/query.py remove_relationships_multiple_bases: tombstone, on the cursor
shard, the live forward rows anchored at a listed base_id and the live
reverse rows anchored at a listed rel_id, returning the forward tuples
followed by the reverse tuples. -/
def remove_rels_bases_q (db : EstateDb) (s : Nat) (guids : List Nat) :
    List RelKey × EstateDb :=
  let hitF := fun (r : RelRow6) =>
    r.shard == s && !r.removed && r.forward && guids.contains r.base_id
  let hitB := fun (r : RelRow6) =>
    r.shard == s && !r.removed && !r.forward && guids.contains r.rel_id
  ((db.rels.filter hitF).map (fun r => ⟨r.base_id, r.ctx, r.forward, r.rel_id⟩)
      ++ (db.rels.filter hitB).map (fun r =>
        ⟨r.base_id, r.ctx, r.forward, r.rel_id⟩),
   { db with rels := db.rels.map (fun r =>
       if hitF r || hitB r then { r with removed := true } else r) })

/-- db/query.py remove_edges_multiple_bases: tombstone the live edges of the
listed base ids on the cursor shard, returning the child ids. -/
def remove_edges_bases_q (db : EstateDb) (s : Nat) (guids : List Nat) :
    List Nat × EstateDb :=
  let hit := fun (r : EdgeRow6) =>
    r.shard == s && !r.removed && guids.contains r.base_id
  ((db.edges.filter hit).map (·.child_id),
   { db with edges := db.edges.map (fun r =>
       if hit r then { r with removed := true } else r) })

/-- db/query.py remove_alias_lookups_multi: tombstone the live alias_lookup
rows on the cursor shard whose (hash, ctx) is listed, returning the removed
(hash, ctx) pairs.  (The walker feeds it (value, ctx) pairs, so the hash
comparison is value against digest.) -/
def remove_alias_lookups_multi_q (db : EstateDb) (s : Nat)
    (pairs : List (List Nat × Nat)) : List (List Nat × Nat) × EstateDb :=
  let hit := fun (r : AliasLookupRow) =>
    r.shard == s && !r.removed && pairs.contains (r.hash, r.ctx)
  ((db.aliasLookups.filter hit).map (fun r => (r.hash, r.ctx)),
   { db with aliasLookups := db.aliasLookups.map (fun r =>
       if hit r then { r with removed := true } else r) })

/-- Modelled from the spec: db/txn.py _remove_lookups calls
query.remove_prefix_lookups_multi which db/query.py does not carry; per
section 4.6 step 3c it tombstones the live prefix_lookup rows matching the
listed (base_id, ctx, value) triples on the cursor shard and returns the
removed triples. -/
def remove_pfx_lookups_multi_q (db : EstateDb) (s : Nat)
    (triples : List NameKey) : List NameKey × EstateDb :=
  let hit := fun (r : PfxLookupRow) =>
    r.shard == s && !r.removed &&
      triples.contains (⟨r.base_id, r.ctx, r.value⟩ : NameKey)
  ((db.pfxLookups.filter hit).map (fun r => ⟨r.base_id, r.ctx, r.value⟩),
   { db with pfxLookups := db.pfxLookups.map (fun r =>
       if hit r then { r with removed := true } else r) })

/-- db/query.py remove_relationships_multi: tombstone the live relationship
rows on the cursor shard matching the listed tuples. -/
def remove_rels_multi_q (db : EstateDb) (s : Nat) (keys : List RelKey) :
    EstateDb :=
  let hit := fun (r : RelRow6) =>
    r.shard == s && !r.removed &&
      keys.contains (⟨r.base_id, r.ctx, r.forward, r.rel_id⟩ : RelKey)
  { db with rels := db.rels.map (fun r =>
      if hit r then { r with removed := true } else r) }

/-- db/query.py bulk_reorder_relationships: renumber, on the cursor shard,
the live rows of the given direction whose (anchor, ctx) is listed, each row
taking its rank (count of live rows of the same anchor, ctx and direction
with a smaller pos) so the positions become dense again. -/
def bulk_reorder_rels_q (db : EstateDb) (s : Nat) (pairs : List (Nat × Nat))
    (forward : Bool) : EstateDb :=
  let anchorOf := fun (r : RelRow6) => if forward then r.base_id else r.rel_id
  let hit := fun (r : RelRow6) =>
    r.shard == s && !r.removed && r.forward == forward &&
      pairs.contains (anchorOf r, r.ctx)
  { db with rels := db.rels.map (fun r =>
      if hit r then
        { r with pos := (db.rels.filter (fun q =>
            q.shard == s && !q.removed && q.forward == forward &&
              anchorOf q == anchorOf r && q.ctx == r.ctx &&
              q.pos < r.pos)).length }
      else r) }

/-- One estate bucket of the walker: alias-lookup pairs and name-lookup
triples (sets in the source), relationship tuples and pending child guids
(lists). -/
structure Bucket where
  aliasPairs : List (List Nat × Nat)
  nameTriples : List NameKey
  rels : List RelKey
  guids : List Nat
deriving DecidableEq

def Bucket.empty : Bucket := ⟨[], [], [], []⟩

/-- The estates map, shard to bucket, in python dict insertion order. -/
abbrev Estates := List (Nat × Bucket)

def est_get (est : Estates) (s : Nat) : Bucket :=
  match est.find? (fun e => e.1 == s) with
  | some e => e.2
  | none => .empty

/-- dict setdefault-and-update: replace the bucket in place or append a new
entry at the end. -/
def est_set (est : Estates) (s : Nat) (b : Bucket) : Estates :=
  if est.any (fun e => e.1 == s) then
    est.map (fun e => if e.1 == s then (s, b) else e)
  else est ++ [(s, b)]

def est_pop (est : Estates) (s : Nat) : Estates :=
  est.filter (fun e => e.1 != s)

/-- python set add: append unless already present. -/
def insert_if_absent {α : Type} [BEq α] (l : List α) (x : α) : List α :=
  if l.contains x then l else l ++ [x]

def dep_alias (est : Estates) (s : Nat) (p : List Nat × Nat) : Estates :=
  est_set est s
    { est_get est s with
      aliasPairs := insert_if_absent (est_get est s).aliasPairs p }

def dep_name (est : Estates) (s : Nat) (t : NameKey) : Estates :=
  est_set est s
    { est_get est s with
      nameTriples := insert_if_absent (est_get est s).nameTriples t }

def dep_rel (est : Estates) (s : Nat) (k : RelKey) : Estates :=
  est_set est s { est_get est s with rels := (est_get est s).rels ++ [k] }

def dep_guid (est : Estates) (s : Nat) (g : Nat) : Estates :=
  est_set est s { est_get est s with guids := (est_get est s).guids ++ [g] }

/-- python set discard on the bucket of an existing entry (no-op when the
shard has no entry). -/
def discard_alias (est : Estates) (s : Nat) (p : List Nat × Nat) : Estates :=
  est.map (fun e =>
    if e.1 == s then
      (e.1, { e.2 with aliasPairs := e.2.aliasPairs.filter (· != p) })
    else e)

def discard_name (est : Estates) (s : Nat) (t : NameKey) : Estates :=
  est.map (fun e =>
    if e.1 == s then
      (e.1, { e.2 with nameTriples := e.2.nameTriples.filter (· != t) })
    else e)

/-- One pass of the while body of db/txn.py _remove_local_estates (lines 1003
to 1041): outside the entity-base first pass, keep only the guids whose node
row was live and tombstone those nodes; then batch-remove properties,
aliases, names, relationships and edges of those guids on the cursor shard,
depositing follow-up work in the estate buckets: each alias lookup on every
shard a read plan might place it (the current shard included), each name
lookup likewise, each relationship peer on the shard of its other end, each
child on its own shard. -/
def drain_body (cfg : PoolCfg) (sha1 : List Nat → List Nat) (s : Nat)
    (db : EstateDb) (est : Estates) (guids : List Nat) (entity_base : Bool) :
    EstateDb × Estates :=
  let step0 := if entity_base then (guids, db) else remove_nodes_q db s guids
  let guids1 := step0.1
  let db1 := (remove_props_q step0.2 s guids1).2
  let stepA := remove_aliases_multi_q db1 s guids1
  let est1 := stepA.1.foldl (fun e p =>
    (shards_for_lookup_hash cfg (sha1 p.1)).foldl
      (fun e2 s2 => dep_alias e2 s2 p) e) est
  let stepN := remove_names_multi_q stepA.2 s guids1
  let est2 := stepN.1.foldl (fun e t =>
    (shards_for_lookup_pfx cfg t.value).foldl
      (fun e2 s2 => dep_name e2 s2 t) e) est1
  let stepR := remove_rels_bases_q stepN.2 s guids1
  let est3 := stepR.1.foldl (fun e k =>
    dep_rel e (shard_by_guid cfg (if k.forward then k.rel_id else k.base_id))
      ⟨k.base_id, k.ctx, !k.forward, k.rel_id⟩) est2
  let stepE := remove_edges_bases_q stepR.2 s guids1
  let est4 := stepE.1.foldl (fun e g => dep_guid e (shard_by_guid cfg g) g)
    est3
  (stepE.2, est4)

/-- The while loop of _remove_local_estates, fuelled: run the body while the
pending guid list is nonempty, re-reading and clearing the guid bucket of the
cursor shard after each pass (work deposited for the current shard is drained
in the same transaction). -/
def drain_loop (cfg : PoolCfg) (sha1 : List Nat → List Nat) (s : Nat) :
    Nat → List Nat → Bool → EstateDb → Estates →
      Option (EstateDb × Estates)
  | 0, _, _, _, _ => none
  | fuel + 1, guids, entity_base, db, est =>
    if guids.isEmpty then some (db, est)
    else
      let step := drain_body cfg sha1 s db est guids entity_base
      let b := est_get step.2 s
      drain_loop cfg sha1 s fuel b.guids false step.1
        (est_set step.2 s { b with guids := [] })

/-- The alias-lookup drain of _remove_local_estates (lines 1045 to 1051):
batch-remove the accumulated lookup pairs on the cursor shard and discard
each actually removed pair from the optimistic entries of every other
read-plan shard. -/
def drain_alias_lookups (cfg : PoolCfg) (s : Nat) (db : EstateDb)
    (est : Estates) (pairs : List (List Nat × Nat)) : EstateDb × Estates :=
  if pairs.isEmpty then (db, est)
  else
    let step := remove_alias_lookups_multi_q db s pairs
    (step.2, step.1.foldl (fun e p =>
      (shards_for_lookup_hash cfg p.1).foldl (fun e2 s2 =>
        if s2 == s then e2 else discard_alias e2 s2 p) e) est)

/-- The name-lookup drain (lines 1053 to 1059) via _remove_lookups; the
contexts in scope carry the prefix search class. -/
def drain_name_lookups (cfg : PoolCfg) (s : Nat) (db : EstateDb)
    (est : Estates) (triples : List NameKey) : EstateDb × Estates :=
  if triples.isEmpty then (db, est)
  else
    let step := remove_pfx_lookups_multi_q db s triples
    (step.2, step.1.foldl (fun e t =>
      (shards_for_lookup_pfx cfg t.value).foldl (fun e2 s2 =>
        if s2 == s then e2 else discard_name e2 s2 t) e) est)

/-- The relationship drain (lines 1061 to 1073): bulk-tombstone the
accumulated peer rows, then bulk-reorder the forward and reverse anchors
whose lists were punched. -/
def drain_rels (db : EstateDb) (s : Nat) (keys : List RelKey) : EstateDb :=
  if keys.isEmpty then db
  else
    let db1 := remove_rels_multi_q db s keys
    let forw := keys.foldl (fun acc k =>
      if k.forward then insert_if_absent acc (k.base_id, k.ctx) else acc) []
    let rev := keys.foldl (fun acc k =>
      if !k.forward then insert_if_absent acc (k.rel_id, k.ctx) else acc) []
    let db2 := if forw.isEmpty then db1 else bulk_reorder_rels_q db1 s forw true
    if rev.isEmpty then db2 else bulk_reorder_rels_q db2 s rev false

/-- Translation of db/txn.py _remove_local_estates (lines 999 to 1076): read
and clear the guid bucket of the cursor shard, run the drain loop, then drain
the alias-lookup, name-lookup and relationship buckets and pop the shard from
the estates map. -/
def remove_local_estates (fuel : Nat) (cfg : PoolCfg)
    (sha1 : List Nat → List Nat) (s : Nat) (db : EstateDb) (est : Estates)
    (entity_base : Bool) : Option (EstateDb × Estates) :=
  let b0 := est_get est s
  let est0 := est_set est s { b0 with guids := [] }
  match drain_loop cfg sha1 s fuel b0.guids entity_base db est0 with
  | none => none
  | some (db1, est1) =>
    let b1 := est_get est1 s
    let r2 := drain_alias_lookups cfg s db1 est1 b1.aliasPairs
    let r3 := drain_name_lookups cfg s r2.1 r2.2 b1.nameTriples
    let db4 := drain_rels r3.1 s b1.rels
    some (db4, est_pop r3.2 s)

inductive TpcName where
  | removeEntityStart
  | removeEntityShard
deriving DecidableEq

/-- Result of the cascading entity removal: outcome, the 2PC anchors opened
along the way (transaction name and shard, in order), the shard of each
estate-drain iteration, and the final database (after commit of every
anchor). -/
structure WalkResult where
  result : Bool
  tpcs : List (TpcName × Nat)
  drains : List Nat
  db : EstateDb
deriving DecidableEq

/-- The while loop of db/txn.py _remove_entity (lines 1104 to 1116): while
the estates map is nonempty, take its first shard, open a fresh 2PC anchor
there and drain that shard; the commit of all anchors happens when the map
empties. -/
def walk_loop (cfg : PoolCfg) (sha1 : List Nat → List Nat) :
    Nat → EstateDb → Estates → List (TpcName × Nat) → List Nat →
      Option WalkResult
  | fuel, db, est, tpcs, drains =>
    match est with
    | [] => some ⟨true, tpcs, drains, db⟩
    | (s, _) :: _ =>
      match fuel with
      | 0 => none
      | fuel + 1 =>
        match remove_local_estates (fuel + 1) cfg sha1 s db est true with
        | none => none
        | some (db1, est1) =>
          walk_loop cfg sha1 fuel db1 est1
            (tpcs ++ [(.removeEntityShard, s)]) (drains ++ [s])

/-- Translation of db/txn.py _remove_entity (lines 1086 to 1129): tombstone
the entity in a first 2PC anchor on its shard (stopping with False when no
live row matched, that anchor rolled back), seed the estates map with the
root guid on its shard, then run the walk loop; every anchor is committed at
the end (or all rolled back on an error, modelled as none on fuel
exhaustion). -/
def remove_entity_walk (fuel : Nat) (cfg : PoolCfg)
    (sha1 : List Nat → List Nat) (db : EstateDb) (guid ctx : Nat) :
    Option WalkResult :=
  let shard := shard_by_guid cfg guid
  let step := remove_entity_q db shard guid ctx
  if !step.1 then some ⟨false, [(.removeEntityStart, shard)], [], db⟩
  else
    walk_loop cfg sha1 fuel step.2
      [(shard, { Bucket.empty with guids := [guid] })]
      [(.removeEntityStart, shard)] []

/-- Concrete walker configuration: one shard bit, lookups on shard 0. -/
def cfgE : PoolCfg :=
  { shard_bits := 1, lookup_insertion_plans := [[⟨1, 0⟩]] }

/-- Concrete database: a single live entity with guid 3 in context 1 on
shard 0 and nothing else. -/
def dbE : EstateDb :=
  { entities := [⟨0, 3, 1, false⟩], nodes := [], edges := [], props := []
    aliases := [], names := [], rels := [], aliasLookups := []
    pfxLookups := [] }

/-- dbE after the cascade: the entity tombstoned. -/
def dbE2 : EstateDb :=
  { entities := [⟨0, 3, 1, true⟩], nodes := [], edges := [], props := []
    aliases := [], names := [], rels := [], aliasLookups := []
    pfxLookups := [] }

def sha1E : List Nat → List Nat := fun _ => []

/-- The walk result on dbE. -/
def rE : WalkResult :=
  ⟨true, [(.removeEntityStart, 0), (.removeEntityShard, 0)], [0], dbE2⟩

/-! ## Theorems -/

theorem flags_to_int_loop_ok (meta : Finset Nat) (ctx : Nat) :
    ∀ (l : List Nat) (num : Nat), (∀ i ∈ l, i ∈ meta) →
      flags_to_int_loop meta ctx l num =
        .ok (l.foldl (fun n i => n ||| (1 <<< (i - 1))) num) := by
  intro l
  induction l with
  | nil => intro num _; rfl
  | cons i rest ih =>
    intro num h
    rw [flags_to_int_loop, if_pos (h i (List.mem_cons_self i rest))]
    exact ih _ (fun j hj => h j (List.mem_cons_of_mem i hj))

theorem testBit_foldl_bitmap :
    ∀ (l : List Nat) (acc k : Nat),
      (l.foldl (fun n i => n ||| (1 <<< (i - 1))) acc).testBit k =
        (acc.testBit k || l.any (fun i => decide (i - 1 = k))) := by
  intro l
  induction l with
  | nil => intro acc k; simp
  | cons i rest ih =>
    intro acc k
    rw [List.foldl_cons, ih, List.any_cons]
    simp only [Nat.testBit_lor, Nat.shiftLeft_eq, one_mul, Nat.testBit_two_pow]
    cases acc.testBit k <;> cases hik : decide (i - 1 = k) <;> simp

theorem mem_int_to_flags_loop (meta : Finset Nat) (f : Nat) :
    ∀ i j, j ∈ int_to_flags_loop meta f i ↔
      (i ≤ j ∧ f.testBit (j - i) = true ∧ j ∈ meta) := by
  induction f using Nat.strong_induction_on with
  | _ f ih =>
    intro i j
    rw [int_to_flags_loop]
    by_cases hf : f = 0
    · subst hf; simp
    · rw [if_neg hf]
      rw [Finset.mem_union, ih (f / 2) (by omega) (i + 1) j]
      constructor
      · rintro (hin | ⟨hij, hbit, hmeta⟩)
        · by_cases hc : f % 2 = 1 ∧ i ∈ meta
          · rw [if_pos hc] at hin
            rw [Finset.mem_singleton] at hin
            subst hin
            refine ⟨le_refl _, ?_, hc.2⟩
            simp [Nat.sub_self, Nat.testBit_zero, hc.1]
          · rw [if_neg hc] at hin
            exact absurd hin (Finset.not_mem_empty j)
        · refine ⟨by omega, ?_, hmeta⟩
          have hji : j - i = (j - (i + 1)) + 1 := by omega
          rw [hji, Nat.testBit_succ]
          exact hbit
      · rintro ⟨hij, hbit, hmeta⟩
        by_cases hji : j = i
        · subst hji
          left
          have h2 : f % 2 = 1 := by
            have := hbit
            rw [Nat.sub_self, Nat.testBit_zero] at this
            exact of_decide_eq_true this
          rw [if_pos ⟨h2, hmeta⟩]
          exact Finset.mem_singleton_self j
        · right
          refine ⟨by omega, ?_, hmeta⟩
          have hji2 : j - i = (j - (i + 1)) + 1 := by omega
          rw [hji2, Nat.testBit_succ] at hbit
          exact hbit

/-- C10: for every context and every list of flag numbers registered for it,
converting to a bitmap and back is the identity on the underlying set, the
bitmap carrying flag number i as bit 1 shifted left by (i - 1). -/
theorem flags_roundtrip (reg : Registry) (ctx : Nat) (l : List Nat)
    (hctx : ctx ∈ reg.contexts)
    (hmem : ∀ i ∈ l, i ∈ reg.flagMeta ctx)
    (hpos : ∀ i ∈ reg.flagMeta ctx, 1 ≤ i) :
    flags_to_int reg ctx l = .ok (bitmap l) ∧
      int_to_flags reg ctx (bitmap l) = .ok l.toFinset := by
  constructor
  · rw [flags_to_int, if_pos hctx,
      flags_to_int_loop_ok (reg.flagMeta ctx) ctx l 0 hmem]
    rfl
  · rw [int_to_flags, if_pos hctx]
    congr 1
    apply Finset.ext
    intro j
    rw [mem_int_to_flags_loop, List.mem_toFinset]
    have hbm : (bitmap l).testBit (j - 1) =
        l.any (fun i => decide (i - 1 = j - 1)) := by
      rw [bitmap, testBit_foldl_bitmap]
      simp
    constructor
    · rintro ⟨h1, hbit, hmeta⟩
      rw [hbm, List.any_eq_true] at hbit
      obtain ⟨i, hi, hdec⟩ := hbit
      have hieq : i - 1 = j - 1 := of_decide_eq_true hdec
      have hi1 : 1 ≤ i := hpos i (hmem i hi)
      have : i = j := by omega
      subst this
      exact hi
    · intro hj
      have hmeta := hmem j hj
      have h1 := hpos j hmeta
      refine ⟨h1, ?_, hmeta⟩
      rw [hbm, List.any_eq_true]
      exact ⟨j, hj, by simp⟩

/-- C10 witness: the round trip evaluated on the concrete registry regW,
context 2 and flag list [1, 3]. -/
theorem flags_roundtrip_witness :
    flags_to_int regW 2 [1, 3] = .ok (bitmap [1, 3]) ∧
      int_to_flags regW 2 (bitmap [1, 3]) = .ok ([1, 3].toFinset) :=
  flags_roundtrip regW 2 [1, 3] (by decide) (by decide) (by decide)

/-- C8 counterexample: with pre-call flags 1 (bit number 1 set), add mask 0 and
clear mask 1, the second set_flags with clear mask (0 OR 1) does not restore
the pre-call flag set. -/
theorem set_flags_roundtrip_cex :
    set_flags (set_flags 1 0 1) 0 (0 ||| 1) ≠ 1 := by
  intro h
  have h0 : (set_flags (set_flags 1 0 1) 0 (0 ||| 1)).testBit 0 =
      Nat.testBit 1 0 := by rw [h]
  simp only [set_flags, add_flags, clear_flags, Nat.testBit_lor,
    Nat.testBit_ldiff] at h0
  simp at h0

/-- C8 amended: set_flags(add = A, clear = C) followed by
set_flags(add = empty, clear = A OR C) yields the pre-call flag set with every
bit of A OR C cleared (so the pre-call set exactly when it was disjoint from
A OR C). -/
theorem set_flags_roundtrip (f A C : Nat) :
    set_flags (set_flags f A C) 0 (A ||| C) = clear_flags f (A ||| C) := by
  apply Nat.eq_of_testBit_eq
  intro k
  simp only [set_flags, add_flags, clear_flags, Nat.testBit_lor,
    Nat.testBit_ldiff]
  cases hf : f.testBit k <;> cases hA : A.testBit k <;>
    cases hC : C.testBit k <;> simp

/-- C7 counterexample: a property already past the limit (num 10, limit 0,
step 1) is pinned to the limit, a move of distance 10 which exceeds the step
magnitude 1. -/
theorem increment_limit_cex :
    increment_property (some 10) 1 (some 0) = some 0 ∧
      ¬ (((0 : Int) - 10).natAbs ≤ ((1 : Int)).natAbs) := by decide

/-- C7 amended: the update either adds the delta or pins the value to the
limit, the sign of the delta selecting the comparison; the distance moved is
at most the delta magnitude when there is no limit, and also whenever the
pre-call value is on the approach side of the limit (at most the limit for a
nonnegative delta, at least the limit for a negative delta). -/
theorem increment_add_or_pin (num step : Int) (limit : Option Int) :
    increment_property (some num) step limit =
        some (increment_num num step limit) ∧
      increment_node (some num) step limit =
        some (increment_num num step limit) ∧
      (increment_num num step limit = num + step ∨
        limit = some (increment_num num step limit)) ∧
      (limit = none → (increment_num num step limit - num).natAbs =
        step.natAbs) ∧
      (∀ l, limit = some l → 0 ≤ step → num ≤ l →
        (increment_num num step limit - num).natAbs ≤ step.natAbs) ∧
      (∀ l, limit = some l → step < 0 → l ≤ num →
        (increment_num num step limit - num).natAbs ≤ step.natAbs) := by
  refine ⟨rfl, rfl, ?_, ?_, ?_, ?_⟩
  · cases limit with
    | none => left; rfl
    | some l =>
      rw [increment_num]
      split
      · split
        · left; rfl
        · right; rfl
      · split
        · left; rfl
        · right; rfl
  · intro h; subst h; rw [increment_num]; omega
  · intro l h hstep hnum; subst h; rw [increment_num]
    split
    · omega
    · split <;> omega
  · intro l h hstep hnum; subst h; rw [increment_num]
    split
    · split <;> omega
    · omega

/-- C7 witness: the bound evaluated at num 0, step 1, limit 5, which needed
the add branch. -/
theorem increment_add_or_pin_witness :
    (increment_num 0 1 (some 5) - 0).natAbs ≤ (1 : Int).natAbs :=
  (increment_add_or_pin 0 1 (some 5)).2.2.2.2.1 5 rfl (by decide) (by decide)

/-- C1: inside an elsewhere scope entered with the 2PC not yet failed, a body
that finishes without marking the 2PC failed commits the prepared anchor; a
body that fails or marks the 2PC failed leaves the anchor rolled back; and a
body exception first rolls the anchor back and then propagates to the
caller. -/
theorem elsewhere_outcomes {ε : Type} (failedAfter : Bool) (bodyExc : Option ε) :
    (bodyExc = none → failedAfter = false →
      elsewhere false failedAfter bodyExc = [.commitAnchor]) ∧
    (bodyExc = none → failedAfter = true →
      elsewhere false failedAfter bodyExc = [.rollbackAnchor]) ∧
    (∀ e, bodyExc = some e →
      elsewhere false failedAfter bodyExc = [.rollbackAnchor, .raiseExc e]) := by
  refine ⟨?_, ?_, ?_⟩
  · intro h1 h2; subst h1; subst h2; rfl
  · intro h1 h2; subst h1; subst h2; rfl
  · intro e h1; subst h1; rfl

/-- C1 witness: the three scope outcomes evaluated with Nat exceptions. -/
theorem elsewhere_outcomes_witness :
    @elsewhere Nat false false none = [.commitAnchor] ∧
      @elsewhere Nat false true none = [.rollbackAnchor] ∧
      @elsewhere Nat false false (some 3) = [.rollbackAnchor, .raiseExc 3] :=
  ⟨(@elsewhere_outcomes Nat false none).1 rfl rfl,
   (@elsewhere_outcomes Nat true none).2.1 rfl rfl,
   (@elsewhere_outcomes Nat false (some 3)).2.2 3 rfl⟩

/-- C3 (code bug): get_by_shard hands its optional timeout to Queue.get as
the positional block flag.  With a timeout of 5 and no connection ever
returned the call blocks forever instead of raising Timeout at the deadline;
with no timeout and a connection only available at instant 1 it raises
Timeout immediately instead of blocking.  The last two conjuncts evaluate the
blocking queue get the claim describes (block=true with the deadline in the
timeout parameter), which does produce the specified outcomes. -/
theorem get_by_shard_timeout_bug :
    get_by_shard (some 5) none = .blocksForever ∧
      get_by_shard none (some 1) = .timeoutError ∧
      queue_get true (some 5) none = .emptyExc ∧
      queue_get true none (some 1) = .item 1 := by decide

/-- C5: upsert_property returns (inserted, updated) with at most one
component true; the pair is (false, false) exactly when the parent row is
absent or tombstoned; and with a live parent it updates exactly when a live
property row for (base_id, ctx) exists and inserts otherwise. -/
theorem upsert_property_spec (st : Storage) (db : PropDb)
    (base_id base_ctx ctx : Nat) (v : Val) (flags : Nat) :
    ¬((upsert_property st db base_id base_ctx ctx v flags).1.1 = true ∧
        (upsert_property st db base_id base_ctx ctx v flags).1.2 = true) ∧
    ((upsert_property st db base_id base_ctx ctx v flags).1 = (false, false) ↔
        parent_live db base_id base_ctx = false) ∧
    (parent_live db base_id base_ctx = true →
      (upsert_property st db base_id base_ctx ctx v flags).1 =
        (!(prop_live db base_id ctx), prop_live db base_id ctx)) := by
  simp only [upsert_property]
  cases hp : parent_live db base_id base_ctx <;>
    cases hq : prop_live db base_id ctx <;> simp

/-- Concrete slice for instantiating the property theorems: one live entity
row with guid 7 in context 1, no properties yet. -/
def dbW : PropDb := { bases := [⟨7, 1, false⟩], props := [] }

/-- C5 witness: on dbW the parent is live and no property row exists, so the
call reports an insert. -/
theorem upsert_property_spec_witness :
    (upsert_property .int dbW 7 1 2 (.int 10) 0).1 =
      (!(prop_live dbW 7 2), prop_live dbW 7 2) :=
  (upsert_property_spec .int dbW 7 1 2 (.int 10) 0).2.2 (by decide)

theorem writeValCols_one_null (st : Storage) (v : Val) :
    (writeValCols st v).1 = none ∨ (writeValCols st v).2 = none := by
  rw [writeValCols.eq_def]
  split
  · right; rfl
  · left; rfl

theorem mem_map_keep_or {α : Type} (l : List α) (f : α → α) (P : α → Prop)
    (h : ∀ q ∈ l, f q = q ∨ P (f q)) : ∀ p ∈ l.map f, p ∈ l ∨ P p := by
  intro p hp
  rw [List.mem_map] at hp
  obtain ⟨q, hq, rfl⟩ := hp
  rcases h q hq with he | hP
  · rw [he]; exact Or.inl hq
  · exact Or.inr hP

/-- C9: every property or node row left behind by upsert_property,
update_property or update_node is either carried over unchanged or has at
most one of its two value columns non-null, because every write puts the
value in the storage column of the context and nulls the other column. -/
theorem value_cols_exclusive (st : Storage) (db : PropDb)
    (nodes : List NodeRow) (base_id base_ctx ctx nid : Nat) (v : Val)
    (flags : Nat) (ov : Option Val) :
    (∀ p ∈ (upsert_property st db base_id base_ctx ctx v flags).2.props,
        p ∈ db.props ∨ p.num = none ∨ p.value = none) ∧
    (∀ p ∈ (update_property st db base_id ctx v).2.props,
        p ∈ db.props ∨ p.num = none ∨ p.value = none) ∧
    (∀ p ∈ (update_node st nodes nid ctx v ov).2,
        p ∈ nodes ∨ p.num = none ∨ p.value = none) := by
  have hmap : ∀ (l : List PropRow) (f : PropRow → PropRow),
      (∀ q ∈ l, f q = q ∨ (f q).num = none ∨ (f q).value = none) →
      ∀ p ∈ l.map f, p ∈ l ∨ p.num = none ∨ p.value = none := by
    intro l f h
    exact mem_map_keep_or l f (fun p => p.num = none ∨ p.value = none) h
  refine ⟨?_, ?_, ?_⟩
  · intro p hp
    simp only [upsert_property] at hp
    have h1 : ∀ q ∈ (if (parent_live db base_id base_ctx &&
          prop_live db base_id ctx) = true then
        db.props.map (fun p =>
          if !p.removed && p.base_id == base_id && p.ctx == ctx then
            { p with num := (writeValCols st v).1,
                     value := (writeValCols st v).2, flags := flags }
          else p)
      else db.props), q ∈ db.props ∨ q.num = none ∨ q.value = none := by
      split
      · apply hmap
        intro q _
        split
        · right
          rcases writeValCols_one_null st v with h | h
          · exact Or.inl h
          · exact Or.inr h
        · exact Or.inl rfl
      · intro q hq; exact Or.inl hq
    split at hp
    · rw [List.mem_append] at hp
      rcases hp with hp | hp
      · exact h1 p hp
      · rw [List.mem_singleton] at hp
        subst hp
        right
        rcases writeValCols_one_null st v with h | h
        · exact Or.inl h
        · exact Or.inr h
    · exact h1 p hp
  · intro p hp
    simp only [update_property] at hp
    refine hmap db.props _ ?_ p hp
    intro q _
    split
    · right
      rcases writeValCols_one_null st v with h | h
      · exact Or.inl h
      · exact Or.inr h
    · exact Or.inl rfl
  · intro p hp
    simp only [update_node] at hp
    refine mem_map_keep_or nodes _ (fun p => p.num = none ∨ p.value = none)
      ?_ p hp
    intro q _
    split
    · right
      rcases writeValCols_one_null st v with h | h
      · exact Or.inl h
      · exact Or.inr h
    · exact Or.inl rfl

/-- C9 witness: the row inserted by upsert_property on dbW stores the integer
in num and null in value. -/
theorem value_cols_exclusive_witness :
    (⟨7, 2, some 10, none, 0, false⟩ : PropRow) ∈ dbW.props ∨
      (⟨7, 2, some 10, none, 0, false⟩ : PropRow).num = none ∨
      (⟨7, 2, some 10, none, 0, false⟩ : PropRow).value = none :=
  (value_cols_exclusive .int dbW [] 7 1 2 0 (.int 10) 0 none).1
    ⟨7, 2, some 10, none, 0, false⟩ (by decide)

/-- C2 (code bug evaluation): on a list of three live edges at positions
0, 1 and 2, shifting the child at position 0 to requested index 5 reports a
move and leaves the target at position 5 rather than at the clamped tail
position min 5 (3 - 1) = 2: db/query.py reorder_edge carries no maxpos
clamp, while the statement the repository tests expect
(tests/test_node.py test_shift) clamps the requested index to the current
maximum position. -/
theorem reorder_edge_no_clamp :
    reorder_edge
        [⟨1, 2, 10, 0, false⟩, ⟨1, 2, 11, 1, false⟩, ⟨1, 2, 12, 2, false⟩]
        1 2 10 5 =
      (true,
        [⟨1, 2, 10, 5, false⟩, ⟨1, 2, 11, 0, false⟩, ⟨1, 2, 12, 1, false⟩]) ∧
      (5 : Nat) ≠ min 5 (3 - 1) := by decide

/-- C4 counterexample: a name flag change on cfgN and dbN anchors the 2PC on
shard 0, the shard of the primary name row, and writes the name table first,
while the lookup row the read plans locate lives on shard 1 - so the claim
that every alias or name flag change anchors on the lookup shard and applies
the change there first fails on the name path. -/
theorem name_flag_anchor_cex :
    (add_name_flags_txn cfgN dbN 0 2 [102] 4).1.anchorShard = some 0 ∧
      find_name_lookup_shard cfgN dbN [102] 2 0 = some 1 ∧
      (add_name_flags_txn cfgN dbN 0 2 [102] 4).1.writes =
        [(.nameT, 0), (.pfxLookupT, 1)] ∧
      (some 0 : Option Nat) ≠ some 1 := by decide

/-- C4 amended: an alias flag change reads the lookup across all read plans,
anchors the 2PC on the shard holding the lookup row, applies the flag change
there first and then to the primary row, committing only when both writes
matched with equal resulting bitmaps (anything else rolls the anchor back and
returns failure).  A name flag change locates the lookup shard the same way
but anchors the 2PC on the shard of the primary name row, applies the flag
change to the primary first and then to the prefix lookup in the elsewhere
scope, again committing only on matching bitmaps; its mismatch path rolls
the anchor back and escapes with a NameError instead of reporting None. -/
theorem alias_name_flag_paths (cfg : PoolCfg) (sha1 : List Nat → List Nat)
    (db : LookupDb) (base_id ctx : Nat) (aliasV nameV : List Nat) (mask : Nat)
    (s ls : Nat) (owner : AliasLookupRow)
    (hfound : find_alias_owner cfg db (sha1 aliasV) ctx = some (s, owner))
    (howner : owner.base_id = base_id)
    (hname : find_name_lookup_shard cfg db nameV ctx base_id = some ls) :
    ((add_alias_flags_txn cfg sha1 db base_id ctx aliasV mask).1.anchorShard =
        some s ∧
      ((add_alias_flags_txn cfg sha1 db base_id ctx aliasV mask).1.writes =
          [(.aliasLookupT, s)] ∨
        (add_alias_flags_txn cfg sha1 db base_id ctx aliasV mask).1.writes =
          [(.aliasLookupT, s), (.aliasT, shard_by_guid cfg base_id)]) ∧
      ((add_alias_flags_txn cfg sha1 db base_id ctx aliasV mask).1.committed =
          true →
        ∃ fl, new_lookup_flags db s (sha1 aliasV) ctx mask = some fl ∧
          new_alias_flags db (shard_by_guid cfg base_id) base_id ctx aliasV
              mask = some fl ∧
          (add_alias_flags_txn cfg sha1 db base_id ctx aliasV mask).1.result =
            .ok fl) ∧
      ((add_alias_flags_txn cfg sha1 db base_id ctx aliasV mask).1.committed =
          false →
        (add_alias_flags_txn cfg sha1 db base_id ctx aliasV mask).1.result =
          .nothing)) ∧
    ((add_name_flags_txn cfg db base_id ctx nameV mask).1.anchorShard =
        some (shard_by_guid cfg base_id) ∧
      ((add_name_flags_txn cfg db base_id ctx nameV mask).1.writes =
          [(.nameT, shard_by_guid cfg base_id)] ∨
        (add_name_flags_txn cfg db base_id ctx nameV mask).1.writes =
          [(.nameT, shard_by_guid cfg base_id), (.pfxLookupT, ls)]) ∧
      ((add_name_flags_txn cfg db base_id ctx nameV mask).1.committed =
          true →
        ∃ fl, new_name_flags db (shard_by_guid cfg base_id) base_id ctx nameV
              mask = some fl ∧
          new_pfx_flags db ls base_id ctx nameV mask = some fl ∧
          (add_name_flags_txn cfg db base_id ctx nameV mask).1.result =
            .ok fl) ∧
      ((add_name_flags_txn cfg db base_id ctx nameV mask).1.committed =
          false →
        (add_name_flags_txn cfg db base_id ctx nameV mask).1.result =
            .nothing ∨
          (add_name_flags_txn cfg db base_id ctx nameV mask).1.result =
            .raisesNameError)) := by
  constructor
  · simp only [add_alias_flags_txn, hfound, howner, bne_self_eq_false,
      Bool.false_eq_true, if_false]
    rcases hnl : new_lookup_flags db s (sha1 aliasV) ctx mask with _ | fl1
    · simp
    · rcases hna : new_alias_flags db (shard_by_guid cfg base_id) base_id ctx
          aliasV mask with _ | fl2
      · simp
      · by_cases hfl : (fl2 != fl1) = true
        · simp [hfl]
        · have heq : fl2 = fl1 := by simpa using hfl
          subst heq
          simp [hfl]
  · simp only [add_name_flags_txn, hname]
    rcases hnn : new_name_flags db (shard_by_guid cfg base_id) base_id ctx
        nameV mask with _ | fl1
    · simp
    · rcases hnp : new_pfx_flags db ls base_id ctx nameV mask with _ | fl2
      · simp
      · by_cases hfl : (fl2 != fl1) = true
        · simp [hfl]
        · have heq : fl2 = fl1 := by simpa using hfl
          subst heq
          simp [hfl]

/-- C4 witness: on the combined slice dbAN the alias flag change anchors on
lookup shard 1, as located by the read plans. -/
theorem alias_name_flag_paths_witness :
    (add_alias_flags_txn cfgN sha1A dbAN 0 2 [9] 4).1.anchorShard = some 1 :=
  (alias_name_flag_paths cfgN sha1A dbAN 0 2 [9] [102] 4 1 1
      ⟨1, [7], 2, 0, 0, false⟩ (by decide) rfl (by decide)).1.1

theorem find?_est_pop (est : Estates) (s : Nat) :
    (est_pop est s).find? (fun e => e.1 == s) = none := by
  rw [est_pop, List.find?_eq_none]
  intro x hx
  rw [List.mem_filter] at hx
  have hne : x.1 ≠ s := by simpa using hx.2
  simp [hne]

theorem walk_loop_count (cfg : PoolCfg) (sha1 : List Nat → List Nat) :
    ∀ (fuel : Nat) (db : EstateDb) (est : Estates)
      (tpcs : List (TpcName × Nat)) (drains : List Nat) (r : WalkResult),
      walk_loop cfg sha1 fuel db est tpcs drains = some r →
        r.tpcs.length + drains.length = tpcs.length + r.drains.length := by
  intro fuel
  induction fuel with
  | zero =>
    intro db est tpcs drains r h
    rw [walk_loop.eq_def] at h
    cases est with
    | nil =>
      rw [Option.some_inj] at h
      subst h
      simp
    | cons e rest => exact absurd h (by simp)
  | succ fuel ih =>
    intro db est tpcs drains r h
    rw [walk_loop.eq_def] at h
    cases est with
    | nil =>
      rw [Option.some_inj] at h
      subst h
      simp
    | cons e rest =>
      simp only at h
      cases hrle : remove_local_estates (fuel + 1) cfg sha1 e.1 db
          (e :: rest) true with
      | none => rw [hrle] at h; exact absurd h (by simp)
      | some pair =>
        rw [hrle] at h
        have := ih pair.1 pair.2 (tpcs ++ [(.removeEntityShard, e.1)])
          (drains ++ [e.1]) r h
        simp only [List.length_append, List.length_singleton] at this
        omega

/-- C6 counterexample: removing a bare entity (one record, one shard) opens
two 2PC anchors, the remove_entity_start anchor for the root tombstone plus
one remove_entity_shard anchor for the single estate drain, exceeding the
count of distinct shards touched, which is one. -/
theorem estate_walk_anchor_cex :
    remove_entity_walk 4 cfgE sha1E dbE 3 1 = some rE ∧
      rE.tpcs.length = 2 ∧
      dedupe_go [] (rE.tpcs.map (·.2)) = [0] ∧
      ¬ (rE.tpcs.length ≤ (dedupe_go [] (rE.tpcs.map (·.2))).length) := by
  decide

/-- C6 amended: the walk opens one 2PC anchor for the initial root tombstone
plus exactly one per estate-drain transaction, so the anchor count is one
more than the number of drain iterations and does not depend on how many
records any single drain removes; each drain handles the entire accumulated
estate of its shard and removes that shard from the pending map (a shard can
only be anchored again if work for it is discovered after its drain). -/
theorem estate_walk_anchor_count :
    (∀ (fuel : Nat) (cfg : PoolCfg) (sha1 : List Nat → List Nat)
        (db : EstateDb) (guid ctx : Nat) (r : WalkResult),
      remove_entity_walk fuel cfg sha1 db guid ctx = some r →
        r.tpcs.length = 1 + r.drains.length) ∧
    (∀ (fuel : Nat) (cfg : PoolCfg) (sha1 : List Nat → List Nat) (s : Nat)
        (db : EstateDb) (est : Estates) (eb : Bool)
        (p : EstateDb × Estates),
      remove_local_estates fuel cfg sha1 s db est eb = some p →
        p.2.find? (fun e => e.1 == s) = none) := by
  constructor
  · intro fuel cfg sha1 db guid ctx r h
    rw [remove_entity_walk] at h
    split at h
    · rw [Option.some_inj] at h
      subst h
      rfl
    · have := walk_loop_count cfg sha1 fuel
        (remove_entity_q db (shard_by_guid cfg guid) guid ctx).2
        [(shard_by_guid cfg guid, { Bucket.empty with guids := [guid] })]
        [(.removeEntityStart, shard_by_guid cfg guid)] [] r h
      simpa using this
  · intro fuel cfg sha1 s db est eb p h
    rw [remove_local_estates] at h
    cases hdl : drain_loop cfg sha1 s fuel (est_get est s).guids eb db
        (est_set est s { est_get est s with guids := [] }) with
    | none => rw [hdl] at h; exact absurd h (by simp)
    | some pair =>
      rw [hdl] at h
      simp only [Option.some_inj] at h
      subst h
      exact find?_est_pop _ s

/-- C6 witness: the anchor count law applied to the walk on dbE. -/
theorem estate_walk_anchor_count_witness :
    rE.tpcs.length = 1 + rE.drains.length :=
  estate_walk_anchor_count.1 4 cfgE sha1E dbE 3 1 rE (by decide)

end Datahog
